import Mathlib

/-!
Verification of the transcript service core (`src/app.py`).

The Python source is shallowly embedded: transcript text is modelled as
`List Char`, URL-ish strings as `String`, the collaborator library
(`youtube_transcript_api`) as record values whose fields are the methods the
source calls, and exceptions as `Except PyErr`.  The Flask endpoints become
pure functions from the global state (`CURRENT_FILE`, `BUILDING`) and the
request parameters to a response together with the new state.
-/

/-! ## Generic character-list helpers (models of Python `str` primitives) -/

/-- Model of Python whitespace for `str.strip()` / `str.split()` (ASCII range:
space, tab, newline, carriage return; Python additionally strips `\x0b`,
`\x0c` and Unicode spaces, which never occur in the claims). -/

def pySpace (c : Char) : Bool := c = ' ' || c = '\t' || c = '\n' || c = '\r'

/-- Model of Python `str.strip()` on a character list. -/

def stripWS (l : List Char) : List Char :=
  ((l.dropWhile pySpace).reverse.dropWhile pySpace).reverse

/-- Model of Python `str.strip()` on a `String`. -/

def pyStrip (s : String) : String := String.mk (stripWS s.toList)

/-- Model of Python `str.lower()` (ASCII case folding, which covers every
string the claims exercise). -/

def pyLower (s : String) : String := String.mk (s.toList.map Char.toLower)

/-- Model of Python `str.strip(c)` for a single character argument. -/

def stripChar (c : Char) (l : List Char) : List Char :=
  ((l.dropWhile (· = c)).reverse.dropWhile (· = c)).reverse

/-- Model of Python `str.startswith`: list prefix test on the characters. -/

def startswith (s pre : String) : Bool :=
  List.isPrefixOf pre.toList s.toList

/-- Split a character list at the first occurrence of the (non-empty) pattern
`pat`, returning the part before it and the part after it. -/

def splitOnFirstSeq (pat : List Char) : List Char → Option (List Char × List Char)
  | [] => if List.isPrefixOf pat [] then some ([], []) else none
  | c :: rest =>
    if List.isPrefixOf pat (c :: rest) then some ([], (c :: rest).drop pat.length)
    else
      match splitOnFirstSeq pat rest with
      | some (a, b) => some (c :: a, b)
      | none => none

/-- Model of the Python substring test `pat in s`. -/

def containsSeq (pat s : List Char) : Bool :=
  (splitOnFirstSeq pat s).isSome

/-- Fuel-driven worker for `splitOnSeq`. -/

def splitOnSeqGo (pat : List Char) : Nat → List Char → List (List Char)
  | 0, s => [s]
  | fuel + 1, s =>
    match splitOnFirstSeq pat s with
    | none => [s]
    | some (a, b) => a :: splitOnSeqGo pat fuel b

/-- Model of Python `str.split(pat)` for a non-empty separator string: the
pieces of `s` between consecutive occurrences of `pat`.  The fuel
`s.length + 1` is always sufficient because each split consumes at least one
character of a non-empty separator. -/

def splitOnSeq (pat s : List Char) : List (List Char) :=
  splitOnSeqGo pat (s.length + 1) s

/-- Model of Python `str.split(c)` for a one-character separator. -/

def splitOnChar (c : Char) : List Char → List (List Char)
  | [] => [[]]
  | x :: rest =>
    if x = c then [] :: splitOnChar c rest
    else
      match splitOnChar c rest with
      | h :: t => (x :: h) :: t
      | [] => [[x]]

/-! ## VideoIdentifierParser (`extract_video_id`, src/app.py lines 54-70)

The source delegates URL splitting to the standard library collaborator
`urllib.parse.urlparse` / `parse_qs`, which lives outside the repository.
`urlparse` and `parse_qs_first` below model that collaborator on the
`scheme://netloc/path?query` shapes the parser contract covers (no percent
decoding, no scheme-character validation: the claims never exercise those). -/

structure UrlParts where
  netloc : List Char
  path : List Char
  query : List Char
deriving DecidableEq, Repr

/-- Modelled collaborator `urllib.parse.urlparse`, restricted to the fields
the source reads: netloc, path and query.  The fragment (after the first
`#`) is discarded first, the netloc is the region between `://` and the next
`/` or `?`, and the query is everything after the first `?` of the rest. -/

def urlparse (url : String) : UrlParts :=
  let s := url.toList.takeWhile (· ≠ '#')
  match splitOnFirstSeq [':', '/', '/'] s with
  | some (_scheme, rest) =>
    let netloc := rest.takeWhile (fun c => c ≠ '/' && c ≠ '?')
    let after := rest.drop netloc.length
    let path := after.takeWhile (· ≠ '?')
    let query := (after.drop path.length).drop 1
    ⟨netloc, path, query⟩
  | none =>
    let path := s.takeWhile (· ≠ '?')
    let query := (s.drop path.length).drop 1
    ⟨[], path, query⟩

/-- Modelled collaborator `urllib.parse.parse_qs`, specialised to the single
lookup the source performs: the first value listed for `key`, where pairs
with a missing `=` or an empty value are dropped (Python's default
`keep_blank_values=False`). -/

def parse_qs_first (query key : List Char) : Option (List Char) :=
  ((splitOnChar '&' query).filterMap fun pair =>
    match splitOnFirstSeq ['='] pair with
    | some (k, v) => if k = key ∧ v ≠ [] then some v else none
    | none => none).head?

/-- Embedding of `extract_video_id` (src/app.py lines 54-70).  Python
`return ... or None` on the short-link branch maps the empty segment to
`none`; the `/shorts/` and `/embed/` branches return the raw segment, which
may be the empty string (`some ""`), exactly as the source does.  The
source's `try/except` wrapper returns `None` on a thrown exception; the model
is total, so the wrapper has no residue. -/

def extract_video_id (url : String) : Option String :=
  let p := urlparse url
  let host := p.netloc.map Char.toLower
  if containsSeq "youtu.be".toList host then
    let seg := (splitOnChar '/' (stripChar '/' p.path)).headD []
    if seg = [] then none else some (String.mk seg)
  else if containsSeq "youtube.com".toList host then
    match parse_qs_first p.query ['v'] with
    | some v => some (String.mk v)
    | none =>
      if containsSeq "/shorts/".toList p.path then
        some (String.mk ((splitOnChar '/' ((splitOnSeq "/shorts/".toList p.path).getD 1 [])).headD []))
      else if containsSeq "/embed/".toList p.path then
        some (String.mk ((splitOnChar '/' ((splitOnSeq "/embed/".toList p.path).getD 1 [])).headD []))
      else none
  else none

/-! ## ChunkPlanner (`_compute_bounds`, src/app.py lines 78-90) -/

/-- Model of Python `text.rfind(" ", i, j)`: the largest position `k` with
`i ≤ k < j` holding a space, scanning downward from `j - 1`; `none` models
Python's `-1`.  Out-of-range positions read as a non-space default. -/

def rfind_space (text : List Char) (i : Nat) : Nat → Option Nat
  | 0 => none
  | j + 1 =>
    if j < i then none
    else if text.getD j 'x' = ' ' then some j
    else rfind_space text i j

/-- One iteration of the `_compute_bounds` loop body: the end offset `j` of
the chunk starting at `i`.  `min (i + max_chars) text.length` is the source's
`j = min(i + max_chars, n)`; when `j < n` the loop snaps `j` back to the last
space found in `[i, j)` provided it lies beyond the tail-avoidance threshold.
Python's threshold `int(max_chars * 0.6)` (a float product truncated to an
integer) is modelled as the truncated rational `max_chars * 6 / 10`; every
theorem below is insensitive to the exact threshold value. -/
def chunkNext (text : List Char) (max_chars i : Nat) : Nat :=
  if min (i + max_chars) text.length < text.length then
    match rfind_space text i (min (i + max_chars) text.length) with
    | some k =>
      if i + max_chars * 6 / 10 < k then k else min (i + max_chars) text.length
    | none => min (i + max_chars) text.length
  else min (i + max_chars) text.length

/-- Fuel-driven worker for the `while i < n` loop of `_compute_bounds`; fuel
`text.length` is enough whenever `max_chars > 0`, because each emitted chunk
is non-empty. -/

def compute_bounds_go (text : List Char) (max_chars : Nat) : Nat → Nat → List (Nat × Nat)
  | _, 0 => []
  | i, fuel + 1 =>
    if i < text.length then
      (i, chunkNext text max_chars i) ::
        compute_bounds_go text max_chars (chunkNext text max_chars i) fuel
    else []

/-- Embedding of `_compute_bounds` (src/app.py lines 78-90): the chunk
boundary table for `text` under page size `max_chars`. -/

def compute_bounds (text : List Char) (max_chars : Nat) : List (Nat × Nat) :=
  compute_bounds_go text max_chars 0 text.length

/-- The sequence `bs`, read from offset `i`, tiles `[i, n)` exactly: each pair
starts where the previous one ended, is non-empty, at most `mc` long, stays
inside `[0, n]`, and the final pair ends at `n`.  Contiguity, disjointness,
ascending order and exact one-time coverage of `[i, n)` are all immediate
consequences of this shape. -/

def ChunkingOk (n mc : Nat) : Nat → List (Nat × Nat) → Prop
  | i, [] => i = n
  | i, (a, b) :: rest => a = i ∧ i < b ∧ b - i ≤ mc ∧ b ≤ n ∧ ChunkingOk n mc b rest

/-! ## TextFlattener (`flatten_text_from_fetched`, src/app.py lines 72-76)

The source takes `fetched.to_raw_data()`, a list of dicts
`{"text", "start", "duration"}`; only the `"text"` entry is read, so a raw
segment is modelled by that single field (`none` models an absent key or a
`None` value, both of which `d.get("text", "") or ""` turn into `""`;
`"start"`/`"duration"` are timing floats the core never touches). -/

structure RawSeg where
  text : Option String
deriving DecidableEq, Repr

/-- Normalisation of one raw segment, from the generator inside
`flatten_text_from_fetched`: `(d.get("text", "") or "").replace("\n", " ").strip()`. -/

def normSeg (s : RawSeg) : List Char :=
  stripWS (((s.text.getD "").toList).map fun c => if c = '\n' then ' ' else c)

/-- Embedding of `flatten_text_from_fetched` (src/app.py lines 72-76):
`" ".join(... for d in raw).strip()`.  The Python function also returns `raw`
unchanged as the second tuple component; only the flattened text is modelled.
Note that `" ".join` interleaves a space between every pair of consecutive
normalised segments, including empty ones. -/

def flatten_text_from_fetched (raw : List RawSeg) : List Char :=
  stripWS (List.intercalate [' '] (raw.map normSeg))

/-- The flattening the spec describes (`Modelled from the spec`): join only
the non-empty normalised segment texts with single spaces, then trim.  Kept
separate from the source embedding so the two can be compared. -/

def flatten_spec_description (raw : List RawSeg) : List Char :=
  stripWS (List.intercalate [' ']
    ((raw.map normSeg).filter fun l => decide (l ≠ [])))

/-! ## TranscriptResolver (`fetch_with_instance`, src/app.py lines 92-141)

The collaborator `youtube_transcript_api` lives outside the repository.  A
caption track is modelled by the three members the source uses
(`language_code`, `fetch`, `translate`), a transcript list by the three
members the source uses (`find_transcript`, `find_generated_transcript` and
the iteration order), and a raised exception by `Except PyErr`.  `PyErr`
distinguishes exactly the exception classes the endpoints catch specially
(`NoTranscriptFound`, `TranscriptsDisabled`) from everything else.  The
`getattr(t, "language_code", ...)` defaults never fire in the model because
`language_code` is always present.  Proxy construction
(`build_webshare_proxy`) is environment glue; the model only carries the
boolean `bool(proxy_cfg)` that the source threads through its results. -/

inductive PyErr
  | noTranscript
  | transcriptsDisabled
  | otherErr
deriving DecidableEq, Repr

/-- A track produced by `translate`; the source only ever calls `fetch` on
it (a translated track is never translated again). -/

structure TranslatedTrack where
  language_code : String
  fetch : Except PyErr (List RawSeg)

/-- A caption track handle, with the members used by the source. -/

structure Track where
  language_code : String
  fetch : Except PyErr (List RawSeg)
  translate : String → Except PyErr TranslatedTrack

/-- The transcript list returned by `ytt.list(video_id)`, with the members
used by the source; `tracks` is `iter(tl)`'s enumeration order. -/

structure TranscriptList where
  find_transcript : List String → Except PyErr Track
  find_generated_transcript : List String → Except PyErr Track
  tracks : List Track

/-- The local `prefer = [target_lang, "en", "en-GB", "en-US"]` of
`fetch_with_instance` (src/app.py line 105). -/

def prefer (target_lang : String) : List String :=
  [target_lang, "en", "en-GB", "en-US"]

/-- Result shape `(fetched, lang, translated, proxy_used)` of a successful
fetch, or the propagated exception. -/

def fetchResult (f : Except PyErr (List RawSeg)) (lang : String) (tr pu : Bool) :
    Except PyErr (List RawSeg × String × Bool × Bool) :=
  match f with
  | .error e => .error e
  | .ok s => .ok (s, lang, tr, pu)

/-- One `try: t = tl.find_...(prefer); fetched = t.fetch(); return ...`
block of `fetch_with_instance`: fails when either the lookup or the fetch
raises. -/

def tryFetchTrack (pu : Bool) (r : Except PyErr Track) :
    Except PyErr (List RawSeg × String × Bool × Bool) :=
  match r with
  | .error e => .error e
  | .ok t => fetchResult t.fetch t.language_code false pu

/-- True exactly on a raised exception. -/

def isErr {ε α : Type} : Except ε α → Bool
  | .error _ => true
  | .ok _ => false

/-- Embedding of `fetch_with_instance` (src/app.py lines 92-141).  `tl_res`
models the outcome of `ytt.list(video_id)` and `proxy_used` models
`bool(proxy_cfg)`.  The two `try/except Exception: pass` blocks become
error-discarding matches; the final branch takes the first enumerated track,
attempts translation when the target language is non-empty and the track's
language does not start with it, and fetches whichever track was chosen. -/

def fetch_with_instance (tl_res : Except PyErr TranscriptList)
    (target_lang : String) (proxy_used : Bool) :
    Except PyErr (List RawSeg × String × Bool × Bool) :=
  match tl_res with
  | .error e => .error e
  | .ok tl =>
    match tryFetchTrack proxy_used (tl.find_transcript (prefer target_lang)) with
    | .ok r => .ok r
    | .error _ =>
      match tryFetchTrack proxy_used (tl.find_generated_transcript (prefer target_lang)) with
      | .ok r => .ok r
      | .error _ =>
        match tl.tracks with
        | [] => .error .noTranscript
        | t :: _ =>
          if target_lang ≠ "" ∧ startswith t.language_code target_lang = false then
            match t.translate target_lang with
            | .ok t2 => fetchResult t2.fetch target_lang true proxy_used
            | .error _ => fetchResult t.fetch t.language_code false proxy_used
          else fetchResult t.fetch t.language_code false proxy_used

/-- A concrete track whose language is French, whose translation always
fails and whose fetch succeeds. -/

def trFr : Track :=
  { language_code := "fr"
    fetch := .ok [⟨some "bonjour tout le monde"⟩]
    translate := fun _ => .error .otherErr }

/-- A concrete transcript list on which both preference lookups fail and
`trFr` is the first enumerated track. -/

def tlFallback : TranscriptList :=
  { find_transcript := fun _ => .error .otherErr
    find_generated_transcript := fun _ => .error .otherErr
    tracks := [trFr] }

/-! ## DocumentStore (`transcript_to_file` / `file_chunk`, src/app.py lines 176-273)

The Flask endpoints read and write the module globals `CURRENT_FILE` and
`BUILDING`; the embedding passes that pair in and out explicitly (`St`).
Request parsing glue is modelled as already done: `max_chars` and `cursor`
arrive as numbers (Python's `int(...)` raising on a malformed number is
request-layer glue outside the claims), the `url` / `target_lang` / `force`
query parameters arrive with their documented defaults already substituted
for absent keys.  The nondeterministic inputs of a build — the collaborator's
listing for the parsed video id, the proxy-configured flag, the generated
`file_id` (a hash of the video id and the clock) and the `created`
timestamp — are explicit parameters. -/

/-- `MAX_CHARS_PER_FILE` (src/app.py line 19). -/

def MAX_CHARS_PER_FILE : Nat := 2000000

/-- Worker for `countWords`, tracking whether a word is open. -/

def countWordsGo : Bool → List Char → Nat
  | _, [] => 0
  | inWord, c :: rest =>
    if pySpace c then countWordsGo false rest
    else (if inWord then 0 else 1) + countWordsGo true rest

/-- Model of Python `len(text.split())`: the number of maximal
non-whitespace runs. -/

def countWords (l : List Char) : Nat := countWordsGo false l

/-- The `meta` dictionary built at src/app.py lines 228-237. -/

structure Meta where
  videoId : String
  language : String
  translatedTo : Option String
  proxy_used : Bool
  word_count : Nat
  char_count : Nat
  page_size_chars : Nat
  total_chunks : Nat
deriving DecidableEq, Repr

/-- The `CURRENT_FILE` dictionary (src/app.py lines 223-238). -/

structure CurrentFile where
  file_id : String
  text : List Char
  bounds : List (Nat × Nat)
  created : Nat
  meta : Meta
deriving DecidableEq, Repr

/-- The mutable globals `CURRENT_FILE` and `BUILDING` (src/app.py lines
29-30). -/

structure St where
  CURRENT_FILE : Option CurrentFile
  BUILDING : Bool
deriving DecidableEq, Repr

/-- The query parameters of a build request, with absent-key defaults
(`target_lang = "en"`, `max_chars = 20000`, `force = "false"`) already
substituted. -/

structure BuildReq where
  url : String
  target_lang : String
  max_chars : Nat
  force : String
deriving DecidableEq, Repr

/-- The distinguishable response shapes of `/transcript_to_file`
(status code and payload fields actually produced by the source). -/

inductive Resp
  | missingUrl
  | busyResp
  | alreadyLoaded (file_id videoId : String) (total_chunks page_size_chars : Nat)
  | badVid
  | noTranscriptResp
  | tooLarge
  | okResp (file_id : String) (meta : Meta)
  | serverError
deriving DecidableEq, Repr

/-- True exactly on the 200 response of a build. -/

def isOkResp : Resp → Bool
  | .okResp _ _ => true
  | _ => false

/-- The part of `transcript_to_file` from `vid = extract_video_id(yt_url)`
(src/app.py line 205) to the end of the handler.  The source sets
`BUILDING = True` on entering the `try` block and resets it to `False` on
every exit (including both `except` clauses); since nothing reads the flag
in between, each exit state is written directly with `BUILDING := false`.
`if not vid` is true for both `None` and the empty identifier. -/

def transcript_to_file_build (st : St) (yt_url target_lang : String)
    (page_size : Nat) (tl_res : Except PyErr TranscriptList) (proxy_used : Bool)
    (new_id : String) (now : Nat) : Resp × St :=
  match extract_video_id yt_url with
  | none => (.badVid, st)
  | some vid =>
    if vid = "" then (.badVid, st)
    else
      match fetch_with_instance tl_res target_lang proxy_used with
      | .error .noTranscript => (.noTranscriptResp, { st with BUILDING := false })
      | .error .transcriptsDisabled => (.noTranscriptResp, { st with BUILDING := false })
      | .error .otherErr => (.serverError, { st with BUILDING := false })
      | .ok (fetched, used_lang, translated, pu) =>
        let text := flatten_text_from_fetched fetched
        if text = [] ∨ countWords text < 10 then
          (.noTranscriptResp, { st with BUILDING := false })
        else if MAX_CHARS_PER_FILE < text.length then
          (.tooLarge, { st with BUILDING := false })
        else
          let bounds := compute_bounds text page_size
          let m : Meta :=
            { videoId := vid
              language := used_lang
              translatedTo := if translated then some target_lang else none
              proxy_used := pu
              word_count := countWords text
              char_count := text.length
              page_size_chars := page_size
              total_chunks := bounds.length }
          let cf : CurrentFile :=
            { file_id := new_id, text := text, bounds := bounds,
              created := now, meta := m }
          (.okResp new_id m, { CURRENT_FILE := some cf, BUILDING := false })

/-- Embedding of the `/transcript_to_file` handler (src/app.py lines
176-247): strip the url, default the target language, read the force flag
(`.lower() == "true"`), then run the guard chain — missing url, busy,
already-loaded-without-force — before building. -/

def transcript_to_file (st : St) (req : BuildReq)
    (tl_res : Except PyErr TranscriptList) (proxy_used : Bool)
    (new_id : String) (now : Nat) : Resp × St :=
  let yt_url := pyStrip req.url
  let target_lang := if pyStrip req.target_lang = "" then "en" else pyStrip req.target_lang
  let force := pyLower req.force == "true"
  if yt_url = "" then (.missingUrl, st)
  else if st.BUILDING then (.busyResp, st)
  else
    match st.CURRENT_FILE, force with
    | some cf, false =>
      (.alreadyLoaded cf.file_id cf.meta.videoId cf.bounds.length
        cf.meta.page_size_chars, st)
    | _, _ =>
      transcript_to_file_build st yt_url target_lang req.max_chars tl_res
        proxy_used new_id now

/-- The distinguishable response shapes of `/file_chunk`. -/

inductive ChunkResp
  | chunkNotFound
  | chunkOutOfRange (total : Nat)
  | chunkOk (file_id : String) (chunk_index total_chunks max_chars : Nat)
      (chunk_text : List Char) (meta : Meta)
deriving DecidableEq, Repr

/-- Embedding of the `/file_chunk` handler (src/app.py lines 249-273).  The
handler declares no globals and never assigns; the state is passed through
unchanged, making the read-only contract part of the result.  `cursor` is an
`Int` because Python accepts negative cursors (rejected by the range
check).  The slice `text[i:j]` is `drop i` then `take (j - i)`, which agrees
with Python slicing for the in-range bounds the table holds. -/

def file_chunk (st : St) (file_id_arg : String) (cursor : Int) : ChunkResp × St :=
  let fid := pyStrip file_id_arg
  match st.CURRENT_FILE with
  | none => (.chunkNotFound, st)
  | some cf =>
    if cf.file_id ≠ fid then (.chunkNotFound, st)
    else if cursor < 0 ∨ (cf.bounds.length : Int) ≤ cursor then
      (.chunkOutOfRange cf.bounds.length, st)
    else
      (.chunkOk fid cursor.toNat cf.bounds.length cf.meta.page_size_chars
        ((cf.text.drop (cf.bounds.getD cursor.toNat (0, 0)).1).take
          ((cf.bounds.getD cursor.toNat (0, 0)).2 -
            (cf.bounds.getD cursor.toNat (0, 0)).1))
        cf.meta, st)

/-- A concrete English track with a ten-word transcript. -/

def trGood : Track :=
  { language_code := "en"
    fetch := .ok [⟨some "a b c d e f g h i j"⟩]
    translate := fun _ => .error .otherErr }

/-- A concrete transcript list whose human-caption lookup succeeds with
`trGood`. -/

def tlGood : TranscriptList :=
  { find_transcript := fun _ => .ok trGood
    find_generated_transcript := fun _ => .error .otherErr
    tracks := [trGood] }

/-- The empty idle store. -/

def stEmpty : St := { CURRENT_FILE := none, BUILDING := false }

/-- A well-formed build request for a short-link URL. -/

def reqGood : BuildReq :=
  { url := "https://youtu.be/abc123", target_lang := "en",
    max_chars := 20000, force := "false" }

/-- The metadata of the document `reqGood` builds from `tlGood`. -/

def metaGood : Meta :=
  { videoId := "abc123", language := "en", translatedTo := none,
    proxy_used := false, word_count := 10, char_count := 19,
    page_size_chars := 20000, total_chunks := 1 }

/-- A concrete held document. -/

def metaSample : Meta :=
  { videoId := "vid0", language := "en", translatedTo := none,
    proxy_used := false, word_count := 3, char_count := 13,
    page_size_chars := 20000, total_chunks := 1 }

/-- A concrete slot occupant. -/

def cfSample : CurrentFile :=
  { file_id := "oldid", text := "old text here".toList, bounds := [(0, 13)],
    created := 0, meta := metaSample }

/-- The idle store holding `cfSample`. -/

def stHeld : St := { CURRENT_FILE := some cfSample, BUILDING := false }

/-- A forced build request. -/

def reqForce : BuildReq :=
  { url := "https://youtu.be/abc123", target_lang := "en",
    max_chars := 20000, force := "true" }

/-- The idle busy store (a build in progress, nothing held). -/

def stBusy : St := { CURRENT_FILE := none, BUILDING := true }

/-- A build request whose url parameter is empty. -/

def reqEmptyUrl : BuildReq :=
  { url := "", target_lang := "en", max_chars := 20000, force := "false" }

/-! ## Theorems -/

example : extract_video_id "https://youtu.be/abc123" = some "abc123" := by decide

example : extract_video_id "https://www.youtube.com/watch?v=abc123" = some "abc123" := by decide

example : extract_video_id "https://www.youtube.com/shorts/abc123" = some "abc123" := by decide

example : extract_video_id "https://www.youtube.com/embed/abc123" = some "abc123" := by decide

example : extract_video_id "https://example.com/x" = none := by decide

theorem rfind_space_some {text : List Char} {i k : Nat} :
    ∀ {j : Nat}, rfind_space text i j = some k →
      i ≤ k ∧ k < j ∧ text.getD k 'x' = ' ' := by
  intro j
  induction j with
  | zero => intro h; simp [rfind_space] at h
  | succ j ih =>
    intro h
    simp only [rfind_space] at h
    split at h
    · exact absurd h (by simp)
    · split at h
      · rename_i hji hsp
        obtain rfl : j = k := by simpa using h
        exact ⟨Nat.le_of_not_lt hji, Nat.lt_succ_self j, hsp⟩
      · obtain ⟨h1, h2, h3⟩ := ih h
        exact ⟨h1, Nat.lt_succ_of_lt h2, h3⟩

theorem chunkNext_cases (text : List Char) (mc i : Nat) :
    (¬ i + mc < text.length ∧ chunkNext text mc i = min (i + mc) text.length) ∨
    (i + mc < text.length ∧
      ∃ k, rfind_space text i (i + mc) = some k ∧ i + mc * 6 / 10 < k ∧
        chunkNext text mc i = k) ∨
    (i + mc < text.length ∧ chunkNext text mc i = i + mc) := by
  unfold chunkNext
  split
  · rename_i h
    have hlt : i + mc < text.length := by omega
    have hmin : min (i + mc) text.length = i + mc := by omega
    rw [hmin]
    split
    · rename_i k hk
      split
      · rename_i hthr
        exact Or.inr (Or.inl ⟨hlt, k, hk, hthr, rfl⟩)
      · exact Or.inr (Or.inr ⟨hlt, rfl⟩)
    · exact Or.inr (Or.inr ⟨hlt, rfl⟩)
  · rename_i h
    exact Or.inl ⟨by omega, rfl⟩

theorem chunkNext_progress {text : List Char} {mc : Nat} (hmc : 0 < mc) {i : Nat}
    (hi : i < text.length) :
    i < chunkNext text mc i ∧ chunkNext text mc i ≤ text.length ∧
      chunkNext text mc i - i ≤ mc := by
  rcases chunkNext_cases text mc i with ⟨h1, h2⟩ | ⟨h1, k, hk, hthr, h2⟩ | ⟨h1, h2⟩
  · rw [h2]; omega
  · obtain ⟨hk1, hk2, _⟩ := rfind_space_some hk
    rw [h2]; omega
  · rw [h2]; omega

theorem compute_bounds_go_chunking {text : List Char} {mc : Nat} (hmc : 0 < mc) :
    ∀ fuel i, i ≤ text.length → text.length ≤ i + fuel →
      ChunkingOk text.length mc i (compute_bounds_go text mc i fuel) := by
  intro fuel
  induction fuel with
  | zero =>
    intro i hi hn
    have : i = text.length := by omega
    simp [compute_bounds_go, ChunkingOk, this]
  | succ fuel ih =>
    intro i hi hn
    simp only [compute_bounds_go]
    split
    · rename_i hlt
      obtain ⟨p1, p2, p3⟩ := chunkNext_progress hmc hlt
      exact ⟨rfl, p1, p3, p2, ih _ p2 (by omega)⟩
    · rename_i hge
      have : i = text.length := by omega
      simp [ChunkingOk, this]

theorem compute_bounds_go_overlong {text : List Char} {mc : Nat} :
    ∀ fuel i, ∀ p ∈ compute_bounds_go text mc i fuel,
      p.2 < text.length →
      (∀ k, p.1 ≤ k → k < p.1 + mc → text.getD k 'x' ≠ ' ') →
      p.2 = p.1 + mc := by
  intro fuel
  induction fuel with
  | zero => intro i p hp; simp [compute_bounds_go] at hp
  | succ fuel ih =>
    intro i p hp hlt hnosp
    simp only [compute_bounds_go] at hp
    split at hp
    · rename_i hin
      simp only [List.mem_cons] at hp
      rcases hp with rfl | hp
      · simp only at hlt hnosp ⊢
        rcases chunkNext_cases text mc i with ⟨h1, h2⟩ | ⟨h1, k, hk, hthr, h2⟩ | ⟨h1, h2⟩
        · rw [h2] at hlt; omega
        · obtain ⟨hk1, hk2, hk3⟩ := rfind_space_some hk
          exact absurd hk3 (hnosp k hk1 hk2)
        · exact h2
      · exact ih _ p hp hlt hnosp
    · simp at hp

example : compute_bounds "aaaa bb".toList 5 = [(0, 4), (4, 7)] := by decide

example : compute_bounds "aaaaaaa".toList 3 = [(0, 3), (3, 6), (6, 7)] := by decide

example : compute_bounds [] 5 = [] := by decide

/-- C1: for every text and every `maxChars > 0`, `_compute_bounds` returns an
ordered, contiguous, non-overlapping tiling of `[0, len text)` (encoded by
`ChunkingOk`: each chunk starts where the previous ended, the first starts at
0, the last ends at `len text`, every chunk is non-empty and at most
`maxChars` long), and any non-final chunk whose window `[start, start +
maxChars)` contains no space — a word longer than `maxChars` forced a cut —
ends at exactly `start + maxChars`. -/
theorem compute_bounds_correct (text : List Char) (max_chars : Nat)
    (h : 0 < max_chars) :
    ChunkingOk text.length max_chars 0 (compute_bounds text max_chars) ∧
    ∀ p ∈ compute_bounds text max_chars, p.2 < text.length →
      (∀ k, p.1 ≤ k → k < p.1 + max_chars → text.getD k 'x' ≠ ' ') →
      p.2 = p.1 + max_chars := by
  constructor
  · exact compute_bounds_go_chunking h text.length 0 (Nat.zero_le _) (by omega)
  · exact compute_bounds_go_overlong text.length 0

/-- Witness for `compute_bounds_correct` at the concrete text
`"hello world again"` and page size 5. -/
theorem compute_bounds_correct_witness :
    0 < 5 ∧
    (ChunkingOk ("hello world again".toList).length 5 0
        (compute_bounds "hello world again".toList 5) ∧
      ∀ p ∈ compute_bounds "hello world again".toList 5,
        p.2 < ("hello world again".toList).length →
        (∀ k, p.1 ≤ k → k < p.1 + 5 →
          ("hello world again".toList).getD k 'x' ≠ ' ') →
        p.2 = p.1 + 5) :=
  ⟨by decide, compute_bounds_correct "hello world again".toList 5 (by decide)⟩

example :
    flatten_text_from_fetched [⟨some "Hello\nworld"⟩, ⟨some " foo "⟩] =
      "Hello world foo".toList := by decide

/-- C6 counterexample: on segments `a`, `""`, `b` the source's `" ".join`
keeps the empty normalised segment, producing a double space, while the
claim's join-only-non-empty recipe produces a single space; the claim is
false on this input. -/
theorem flatten_join_all_counterexample :
    flatten_text_from_fetched [⟨some "a"⟩, ⟨some ""⟩, ⟨some "b"⟩] =
        "a  b".toList ∧
      flatten_spec_description [⟨some "a"⟩, ⟨some ""⟩, ⟨some "b"⟩] =
        "a b".toList ∧
      flatten_text_from_fetched [⟨some "a"⟩, ⟨some ""⟩, ⟨some "b"⟩] ≠
        flatten_spec_description [⟨some "a"⟩, ⟨some ""⟩, ⟨some "b"⟩] := by
  refine ⟨by decide, by decide, by decide⟩

/-- C6 amended: the flattener normalises each segment's text (empty if
absent, line breaks to spaces, trimmed) and joins ALL the results — empty
ones included — with single spaces, trimming the final result; interior
segments whose normalised text is empty therefore do contribute extra
spaces.  When every segment normalises to non-empty text this agrees with
the claim's join-only-non-empty recipe, and the spec's own example
evaluates as stated. -/
theorem flatten_text_amended :
    (∀ raw : List RawSeg, (∀ s ∈ raw, normSeg s ≠ []) →
      flatten_text_from_fetched raw = flatten_spec_description raw) ∧
    flatten_text_from_fetched [⟨some "Hello\nworld"⟩, ⟨some " foo "⟩] =
      "Hello world foo".toList := by
  constructor
  · intro raw hne
    unfold flatten_text_from_fetched flatten_spec_description
    congr 1
    congr 1
    rw [eq_comm, List.filter_eq_self]
    intro a ha
    rcases List.mem_map.mp ha with ⟨s, hs, rfl⟩
    exact decide_eq_true (hne s hs)
  · decide

/-- Witness for `flatten_text_amended` at two concretely non-empty
segments. -/
theorem flatten_text_amended_witness :
    (∀ s ∈ [(⟨some "x"⟩ : RawSeg), ⟨some "y"⟩], normSeg s ≠ []) ∧
    flatten_text_from_fetched [⟨some "x"⟩, ⟨some "y"⟩] =
      flatten_spec_description [⟨some "x"⟩, ⟨some "y"⟩] :=
  ⟨by decide, flatten_text_amended.1 [⟨some "x"⟩, ⟨some "y"⟩] (by decide)⟩

theorem isErr_exists {ε α : Type} {r : Except ε α} (h : isErr r = true) :
    ∃ e, r = .error e := by
  cases r with
  | error e => exact ⟨e, rfl⟩
  | ok a => simp [isErr] at h

theorem startswith_empty (s : String) : startswith s "" = true := by
  cases h : s.toList <;> simp [startswith, h, List.isPrefixOf]

/-- C5 counterexample: the source builds the preference list without
deduplication, so for target language `"en"` the list holds `"en"` twice
and is not the deduplicated list the claim describes. -/
theorem prefer_dedup_counterexample :
    prefer "en" ≠ ["en", "en-GB", "en-US"] ∧ (prefer "en").count "en" = 2 := by
  refine ⟨by decide, by decide⟩

/-- C5 amended: the resolver builds the ordered preference list
`[targetLanguage, "en", "en-GB", "en-US"]` as written, without removing
duplicates: for target `"en"` the list contains `"en"` twice, while a target
distinct from the three defaults yields a duplicate-free list. -/
theorem prefer_list_amended :
    (∀ t : String, prefer t = [t, "en", "en-GB", "en-US"]) ∧
    (prefer "en").count "en" = 2 ∧ (prefer "fr").Nodup :=
  ⟨fun _ => rfl, by decide, by decide⟩

/-- C4: when both preference-list lookups fail (the source's first two
`try` blocks, which also cover the fetch inside them) and the enumeration is
non-empty, the resolver takes the first enumerated track; if its language
code starts with the target it is fetched as-is (`translated = false`), and
otherwise translation is attempted — on success the translated track is
fetched with language `target` and `translated = true`, on failure the
original track is fetched with its own language and `translated = false`. -/
theorem fetch_first_track_fallback (tl : TranscriptList) (target : String)
    (pu : Bool) (t : Track) (rest : List Track)
    (h1 : isErr (tryFetchTrack pu (tl.find_transcript (prefer target))) = true)
    (h2 : isErr (tryFetchTrack pu (tl.find_generated_transcript (prefer target))) = true)
    (h3 : tl.tracks = t :: rest) :
    (startswith t.language_code target = true →
      fetch_with_instance (.ok tl) target pu =
        fetchResult t.fetch t.language_code false pu) ∧
    (startswith t.language_code target = false →
      (∀ t2, t.translate target = .ok t2 →
        fetch_with_instance (.ok tl) target pu =
          fetchResult t2.fetch target true pu) ∧
      (isErr (t.translate target) = true →
        fetch_with_instance (.ok tl) target pu =
          fetchResult t.fetch t.language_code false pu)) := by
  obtain ⟨e1, he1⟩ := isErr_exists h1
  obtain ⟨e2, he2⟩ := isErr_exists h2
  simp only [fetch_with_instance, he1, he2, h3]
  constructor
  · intro hsw
    rw [if_neg]
    rintro ⟨-, hc⟩
    rw [hsw] at hc
    cases hc
  · intro hsw
    have hne : target ≠ "" := by
      intro h
      rw [h, startswith_empty] at hsw
      cases hsw
    constructor
    · intro t2 ht2
      rw [if_pos ⟨hne, hsw⟩, ht2]
    · intro htr
      obtain ⟨e3, he3⟩ := isErr_exists htr
      rw [if_pos ⟨hne, hsw⟩, he3]

/-- Witness for `fetch_first_track_fallback` on `tlFallback` with target
`"en"`: translation fails, so the original French track is fetched
untranslated. -/
theorem fetch_first_track_fallback_witness :
    isErr (tryFetchTrack false (tlFallback.find_transcript (prefer "en"))) = true ∧
    isErr (tryFetchTrack false (tlFallback.find_generated_transcript (prefer "en"))) = true ∧
    startswith trFr.language_code "en" = false ∧
    isErr (trFr.translate "en") = true ∧
    fetch_with_instance (.ok tlFallback) "en" false =
      fetchResult trFr.fetch trFr.language_code false false :=
  ⟨rfl, rfl, by decide, rfl,
    ((fetch_first_track_fallback tlFallback "en" false trFr [] rfl rfl rfl).2
      (by decide)).2 rfl⟩

/-- C9: the video-identifier parser is total (the model returns an
`Option`, never an exception) and behaves as the claim's five examples
state; moreover any URL whose lowercased host contains neither `youtu.be`
nor `youtube.com` parses to not-found. -/
theorem extract_video_id_spec :
    extract_video_id "https://youtu.be/abc123" = some "abc123" ∧
    extract_video_id "https://www.youtube.com/watch?v=abc123" = some "abc123" ∧
    extract_video_id "https://www.youtube.com/shorts/abc123" = some "abc123" ∧
    extract_video_id "https://www.youtube.com/embed/abc123" = some "abc123" ∧
    extract_video_id "https://example.com/x" = none ∧
    ∀ url : String,
      containsSeq "youtu.be".toList ((urlparse url).netloc.map Char.toLower) = false →
      containsSeq "youtube.com".toList ((urlparse url).netloc.map Char.toLower) = false →
      extract_video_id url = none := by
  refine ⟨by decide, by decide, by decide, by decide, by decide, ?_⟩
  intro url h1 h2
  simp only [extract_video_id, h1, h2]
  simp

/-- Witness for the quantified part of `extract_video_id_spec` at the
malformed input `"notaurl"`. -/
theorem extract_video_id_spec_witness :
    containsSeq "youtu.be".toList ((urlparse "notaurl").netloc.map Char.toLower) = false ∧
    containsSeq "youtube.com".toList ((urlparse "notaurl").netloc.map Char.toLower) = false ∧
    extract_video_id "notaurl" = none :=
  ⟨by decide, by decide,
    extract_video_id_spec.2.2.2.2.2 "notaurl" (by decide) (by decide)⟩

theorem transcript_to_file_build_cases (st : St) (yt tg : String) (ps : Nat)
    (tl : Except PyErr TranscriptList) (pu : Bool) (nid : String) (now : Nat)
    (hb : st.BUILDING = false) :
    ((transcript_to_file_build st yt tg ps tl pu nid now).2 = st ∧
      isOkResp (transcript_to_file_build st yt tg ps tl pu nid now).1 = false) ∨
    (∃ cf, (transcript_to_file_build st yt tg ps tl pu nid now).2 =
        ⟨some cf, false⟩ ∧
      (transcript_to_file_build st yt tg ps tl pu nid now).1 =
        .okResp cf.file_id cf.meta) := by
  obtain ⟨cf0, b0⟩ := st
  simp only at hb
  subst hb
  simp only [transcript_to_file_build]
  split
  · exact Or.inl ⟨rfl, rfl⟩
  · split
    · exact Or.inl ⟨rfl, rfl⟩
    · split
      · exact Or.inl ⟨rfl, rfl⟩
      · exact Or.inl ⟨rfl, rfl⟩
      · exact Or.inl ⟨rfl, rfl⟩
      · split
        · exact Or.inl ⟨rfl, rfl⟩
        · split
          · exact Or.inl ⟨rfl, rfl⟩
          · exact Or.inr ⟨_, rfl, rfl⟩

theorem transcript_to_file_cases (st : St) (req : BuildReq)
    (tl : Except PyErr TranscriptList) (pu : Bool) (nid : String) (now : Nat) :
    ((transcript_to_file st req tl pu nid now).2 = st ∧
      isOkResp (transcript_to_file st req tl pu nid now).1 = false) ∨
    (st.BUILDING = false ∧ ∃ cf,
      (transcript_to_file st req tl pu nid now).2 = ⟨some cf, false⟩ ∧
      (transcript_to_file st req tl pu nid now).1 = .okResp cf.file_id cf.meta) := by
  simp only [transcript_to_file]
  split
  · exact Or.inl ⟨rfl, rfl⟩
  · split
    · exact Or.inl ⟨rfl, rfl⟩
    · rename_i hnb
      have hb : st.BUILDING = false := by
        revert hnb
        cases st.BUILDING <;> simp
      split
      · exact Or.inl ⟨rfl, rfl⟩
      · rcases transcript_to_file_build_cases st (pyStrip req.url)
          (if pyStrip req.target_lang = "" then "en" else pyStrip req.target_lang)
          req.max_chars tl pu nid now hb with ⟨h1, h2⟩ | ⟨cf, h1, h2⟩
        · exact Or.inl ⟨h1, h2⟩
        · exact Or.inr ⟨hb, cf, h1, h2⟩

/-- C2: a build request either fully succeeds — the response is the 200
payload and the slot then holds exactly the newly built document whose id
and metadata the response reports — or it does not succeed (validation
failure, busy, conflict, no-transcript, size-limit, or any caught
exception), and the slot's document is exactly what it was before the
attempt.  This holds for every entry state, request and collaborator
outcome, so no partial document is ever placed in the slot. -/
theorem build_atomic (st : St) (req : BuildReq)
    (tl : Except PyErr TranscriptList) (pu : Bool) (nid : String) (now : Nat) :
    (isOkResp (transcript_to_file st req tl pu nid now).1 = false →
      (transcript_to_file st req tl pu nid now).2.CURRENT_FILE =
        st.CURRENT_FILE) ∧
    (∀ fid m, (transcript_to_file st req tl pu nid now).1 = .okResp fid m →
      ∃ cf, (transcript_to_file st req tl pu nid now).2.CURRENT_FILE = some cf ∧
        cf.file_id = fid ∧ cf.meta = m) := by
  rcases transcript_to_file_cases st req tl pu nid now with ⟨h1, h2⟩ | ⟨hb, cf, h1, h2⟩
  · constructor
    · intro _; rw [h1]
    · intro fid m hok
      rw [hok] at h2
      simp [isOkResp] at h2
  · constructor
    · intro hfail
      rw [h2] at hfail
      simp [isOkResp] at hfail
    · intro fid m hok
      rw [h2] at hok
      obtain ⟨hfid, hm⟩ := Resp.okResp.inj hok
      exact ⟨cf, by rw [h1], hfid, hm⟩

/-- Witness for `build_atomic`: the concrete successful build of `reqGood`
against `tlGood` places a document with the reported id and metadata in the
slot. -/
theorem build_atomic_witness :
    (transcript_to_file stEmpty reqGood (.ok tlGood) false "fid1" 7).1 =
        .okResp "fid1" metaGood ∧
    ∃ cf, (transcript_to_file stEmpty reqGood (.ok tlGood) false "fid1" 7).2.CURRENT_FILE =
        some cf ∧ cf.file_id = "fid1" ∧ cf.meta = metaGood :=
  ⟨by decide,
    (build_atomic stEmpty reqGood (.ok tlGood) false "fid1" 7).2 "fid1" metaGood
      (by decide)⟩

/-- C3 counterexample: a forced rebuild accepted while `cfSample` is held
fails (the collaborator's listing raises), yet the previously held document
is still in the slot — the source never vacates the slot before a forced
build, so the slot is not empty after the failed attempt as the claim
states. -/
theorem forced_rebuild_cex :
    (transcript_to_file stHeld reqForce (.error .otherErr) false "n1" 0).1 =
        .serverError ∧
    (transcript_to_file stHeld reqForce (.error .otherErr) false "n1" 0).2.CURRENT_FILE =
        some cfSample ∧
    some cfSample ≠ (none : Option CurrentFile) :=
  ⟨by decide, by decide, by decide⟩

/-- C3 amended: when a forced build is accepted while a document is held and
the build then fails, the previously held document is still in the slot —
the slot is only ever written on success, so nothing is vacated beforehand
and nothing is lost. -/
theorem forced_rebuild_failure_keeps_document (st : St) (cf : CurrentFile)
    (req : BuildReq) (tl : Except PyErr TranscriptList) (pu : Bool)
    (nid : String) (now : Nat)
    (_hb : st.BUILDING = false) (hcf : st.CURRENT_FILE = some cf)
    (_hforce : pyLower req.force = "true")
    (hfail : isOkResp (transcript_to_file st req tl pu nid now).1 = false) :
    (transcript_to_file st req tl pu nid now).2.CURRENT_FILE = some cf := by
  rcases transcript_to_file_cases st req tl pu nid now with ⟨h1, _⟩ | ⟨_, cf2, h1, h2⟩
  · rw [h1]; exact hcf
  · rw [h2] at hfail
    simp [isOkResp] at hfail

/-- Witness for `forced_rebuild_failure_keeps_document` at the concrete
failing forced rebuild of `forced_rebuild_cex`. -/
theorem forced_rebuild_failure_keeps_document_witness :
    stHeld.BUILDING = false ∧ stHeld.CURRENT_FILE = some cfSample ∧
    pyLower reqForce.force = "true" ∧
    isOkResp (transcript_to_file stHeld reqForce (.error .otherErr) false "n1" 0).1 =
      false ∧
    (transcript_to_file stHeld reqForce (.error .otherErr) false "n1" 0).2.CURRENT_FILE =
      some cfSample :=
  ⟨rfl, rfl, by decide, by decide,
    forced_rebuild_failure_keeps_document stHeld cfSample reqForce
      (.error .otherErr) false "n1" 0 rfl rfl (by decide) (by decide)⟩

/-- C7 counterexample: a build request with an empty url arriving while the
build flag is set is rejected as missing-url (validation), not as busy — the
source checks `if not yt_url` before `if BUILDING` — so a request while
building is not ALWAYS rejected busy. -/
theorem busy_conflict_cex :
    stBusy.BUILDING = true ∧
    transcript_to_file stBusy reqEmptyUrl (.error .otherErr) false "n1" 0 =
      (.missingUrl, stBusy) ∧
    Resp.missingUrl ≠ Resp.busyResp :=
  ⟨rfl, by decide, by decide⟩

/-- C7 amended: provided the stripped url is non-empty (the missing-url
validation precedes the busy check), a build request arriving while the
build flag is set is rejected busy with the state unchanged; and a
non-empty-url build request arriving while a document is held, no build
running and the force flag not `"true"` is rejected conflict carrying the
held document's id, video id, chunk count and page size, with the state
unchanged. -/
theorem conflict_rejections (st : St) (req : BuildReq)
    (tl : Except PyErr TranscriptList) (pu : Bool) (nid : String) (now : Nat) :
    (pyStrip req.url ≠ "" → st.BUILDING = true →
      transcript_to_file st req tl pu nid now = (.busyResp, st)) ∧
    (∀ cf, pyStrip req.url ≠ "" → st.BUILDING = false →
      st.CURRENT_FILE = some cf → pyLower req.force ≠ "true" →
      transcript_to_file st req tl pu nid now =
        (.alreadyLoaded cf.file_id cf.meta.videoId cf.bounds.length
          cf.meta.page_size_chars, st)) := by
  constructor
  · intro hu hb
    simp only [transcript_to_file, hb]
    rw [if_neg hu]
    simp
  · intro cf hu hb hcf hforce
    have hf : (pyLower req.force == "true") = false :=
      beq_eq_false_iff_ne.mpr hforce
    simp only [transcript_to_file, hb, hcf, hf]
    rw [if_neg hu]
    simp

/-- Witness for `conflict_rejections`: a busy rejection at a concrete
non-empty-url request, and a conflict rejection at the concrete held
store. -/
theorem conflict_rejections_witness :
    (pyStrip reqGood.url ≠ "" ∧ stBusy.BUILDING = true ∧
      transcript_to_file stBusy reqGood (.error .otherErr) false "n1" 0 =
        (.busyResp, stBusy)) ∧
    (pyStrip reqGood.url ≠ "" ∧ stHeld.BUILDING = false ∧
      stHeld.CURRENT_FILE = some cfSample ∧ pyLower reqGood.force ≠ "true" ∧
      transcript_to_file stHeld reqGood (.error .otherErr) false "n1" 0 =
        (.alreadyLoaded "oldid" "vid0" 1 20000, stHeld)) :=
  ⟨⟨by decide, rfl,
      (conflict_rejections stBusy reqGood (.error .otherErr) false "n1" 0).1
        (by decide) rfl⟩,
    ⟨by decide, rfl, rfl, by decide,
      ((conflict_rejections stHeld reqGood (.error .otherErr) false "n1" 0).2
          cfSample (by decide) rfl rfl (by decide)).trans (by decide)⟩⟩

/-- C10: every terminating execution of the build endpoint leaves the
build-in-progress flag exactly as it found it: a request entered with the
flag clear (the only reachable entry state in the sequential model, and the
only state in which the handler itself sets the flag) returns with it clear
again on every path — success, each rejection, and each caught exception —
while the busy rejection touches nothing; the store therefore never remains
stuck in `Building` after a build request has returned. -/
theorem building_flag_restored (st : St) (req : BuildReq)
    (tl : Except PyErr TranscriptList) (pu : Bool) (nid : String) (now : Nat) :
    (transcript_to_file st req tl pu nid now).2.BUILDING = st.BUILDING := by
  rcases transcript_to_file_cases st req tl pu nid now with ⟨h1, _⟩ | ⟨hb, cf, h1, _⟩
  · rw [h1]
  · rw [h1, hb]

/-- C8: a chunk read never mutates the store, and its outcome is classified
exactly by the claim's cases: no held document or a mismatched (stripped)
document id gives not-found; a matching id with a cursor outside
`[0, totalChunks)` — in particular `cursor = totalChunks` — gives a range
error; a matching id with an in-range cursor returns the text slice at the
cursor's precomputed bounds together with the chunk index, total chunk
count, page size and metadata. -/
theorem file_chunk_spec (st : St) (fid : String) (c : Int) :
    (file_chunk st fid c).2 = st ∧
    (st.CURRENT_FILE = none → (file_chunk st fid c).1 = .chunkNotFound) ∧
    (∀ cf, st.CURRENT_FILE = some cf → cf.file_id ≠ pyStrip fid →
      (file_chunk st fid c).1 = .chunkNotFound) ∧
    (∀ cf, st.CURRENT_FILE = some cf → cf.file_id = pyStrip fid →
      (c < 0 ∨ (cf.bounds.length : Int) ≤ c) →
      (file_chunk st fid c).1 = .chunkOutOfRange cf.bounds.length) ∧
    (∀ cf, st.CURRENT_FILE = some cf → cf.file_id = pyStrip fid →
      0 ≤ c → c < (cf.bounds.length : Int) →
      (file_chunk st fid c).1 = .chunkOk (pyStrip fid) c.toNat cf.bounds.length
        cf.meta.page_size_chars
        ((cf.text.drop (cf.bounds.getD c.toNat (0, 0)).1).take
          ((cf.bounds.getD c.toNat (0, 0)).2 -
            (cf.bounds.getD c.toNat (0, 0)).1))
        cf.meta) := by
  refine ⟨?_, ?_, ?_, ?_, ?_⟩
  · simp only [file_chunk]
    split
    · rfl
    · split
      · rfl
      · split
        · rfl
        · rfl
  · intro h
    simp only [file_chunk, h]
  · intro cf h hne
    simp only [file_chunk, h]
    rw [if_pos hne]
  · intro cf h heq hrange
    simp only [file_chunk, h]
    rw [if_neg (fun hn => hn heq), if_pos hrange]
  · intro cf h heq h0 hlt
    simp only [file_chunk, h]
    rw [if_neg (fun hn => hn heq), if_neg (by omega)]

/-- Witness for `file_chunk_spec`: the concrete in-range read of chunk 0
from the held store, and the concrete range error at
`cursor = totalChunks`. -/
theorem file_chunk_spec_witness :
    (stHeld.CURRENT_FILE = some cfSample ∧ cfSample.file_id = pyStrip "oldid" ∧
      (0 : Int) ≤ 0 ∧ (0 : Int) < (cfSample.bounds.length : Int) ∧
      (file_chunk stHeld "oldid" 0).1 =
        .chunkOk "oldid" 0 1 20000 "old text here".toList metaSample) ∧
    (cfSample.file_id = pyStrip "oldid" ∧
      ((1 : Int) < 0 ∨ (cfSample.bounds.length : Int) ≤ 1) ∧
      (file_chunk stHeld "oldid" 1).1 = .chunkOutOfRange 1) :=
  ⟨⟨rfl, by decide, by decide, by decide,
      ((file_chunk_spec stHeld "oldid" 0).2.2.2.2 cfSample rfl (by decide)
          (by decide) (by decide)).trans (by decide)⟩,
    ⟨by decide, Or.inr (by decide),
      ((file_chunk_spec stHeld "oldid" 1).2.2.2.1 cfSample rfl (by decide)
          (Or.inr (by decide))).trans (by decide)⟩⟩
